import Mathlib

/-!
Verification development for the article-analysis pipeline
(`src/agents.py`, `src/main.py`).

The Python code is shallowly embedded: Python `str` becomes `String`
(a sequence of Unicode code points, matching Python's `len`/indexing),
Python dictionaries produced by `json.loads` become the inductive `Json`
type below, raised exceptions become `Except`/error results, and the two
external chat-model transports become explicit oracle functions from the
prompt text to either a reply string or a raised error.
-/

namespace ArticleAnalysis

/-! ### Python string helpers

`pyIsSpace` is the set of code points removed by Python's `str.strip()`
(the characters for which `str.isspace()` holds). -/

def pyIsSpace (c : Char) : Bool :=
  let n := c.toNat
  (0x09 ≤ n && n ≤ 0x0D) || n == 0x20 || (0x1C ≤ n && n ≤ 0x1F) ||
  n == 0x85 || n == 0xA0 || n == 0x1680 || (0x2000 ≤ n && n ≤ 0x200A) ||
  n == 0x2028 || n == 0x2029 || n == 0x202F || n == 0x205F || n == 0x3000

/-- Python `str.strip()`: remove leading and trailing whitespace. -/
def pyStrip (s : String) : String :=
  String.mk (((s.data.dropWhile pyIsSpace).reverse.dropWhile pyIsSpace).reverse)

/-! ### JSON values

Values returned by Python's `json.loads`.  Numbers are kept as their
source lexeme (`"3"`, `"1.5e2"`, `"NaN"`, ...): no claim inspects numeric
values, only parse success/failure and structural shape, so the lexeme is
a faithful representative (it distinguishes everything Python's int/float
distinction distinguishes on these inputs). -/

inductive Json where
  | null
  | bool (b : Bool)
  | num (lexeme : String)
  | str (s : String)
  | arr (items : List Json)
  | obj (members : List (String × Json))

/-- Is the value a JSON object (a Python `dict`)? -/
def Json.isObj : Json → Bool
  | .obj _ => true
  | _ => false

/-- Python `dict` insertion: an existing key keeps its position and gets the
new value, a new key is appended.  Used because `json.loads` builds a `dict`
from the parsed key/value pairs (duplicate keys: last value wins). -/
def insertPair (ps : List (String × Json)) (k : String) (v : Json) :
    List (String × Json) :=
  match ps with
  | [] => [(k, v)]
  | (k₁, v₁) :: rest =>
    if k₁ = k then (k₁, v) :: rest else (k₁, v₁) :: insertPair rest k v

/-! ### A model of Python `json.loads`

Follows CPython's `json` module: JSON whitespace is space/tab/LF/CR;
top-level extra data is an error; object keys are double-quoted strings;
strict string scanning (raw control characters below 0x20 are rejected,
only the eight standard escapes and `\uXXXX` are allowed, surrogate pairs
are combined); numbers follow `(-?(0|[1-9][0-9]*))(\.[0-9]+)?([eE][-+]?[0-9]+)?`;
the Python extensions `NaN`, `Infinity`, `-Infinity` are accepted.
A lone surrogate escape is modelled with `Char.ofNat` (which maps the
invalid code point to NUL); no claim depends on that corner.
Recursion is fueled; the initial fuel in `json_loads` strictly dominates
the input length, so fuel never runs out mid-parse. -/

def jsonWs (c : Char) : Bool :=
  c == ' ' || c == '\t' || c == '\n' || c == '\r'

def skipWs (s : List Char) : List Char := s.dropWhile jsonWs

def hexVal (c : Char) : Option Nat :=
  if c.isDigit then some (c.toNat - 48)
  else if 'a' ≤ c && c ≤ 'f' then some (c.toNat - 87)
  else if 'A' ≤ c && c ≤ 'F' then some (c.toNat - 55)
  else none

def hex4 : List Char → Option (Nat × List Char)
  | a :: b :: c :: d :: rest =>
    match hexVal a, hexVal b, hexVal c, hexVal d with
    | some x, some y, some z, some w =>
      some ((((x * 16 + y) * 16 + z) * 16 + w), rest)
    | _, _, _, _ => none
  | _ => none

def escChar : Char → Option Char
  | '"' => some '"'
  | '\\' => some '\\'
  | '/' => some '/'
  | 'b' => some (Char.ofNat 8)
  | 'f' => some (Char.ofNat 12)
  | 'n' => some '\n'
  | 'r' => some '\r'
  | 't' => some '\t'
  | _ => none

/-- Scan the body of a JSON string (the opening quote already consumed),
returning the decoded string and the input after the closing quote. -/
def scanStringAux : Nat → List Char → List Char → Option (String × List Char)
  | 0, _, _ => none
  | _ + 1, _, [] => none
  | fuel + 1, acc, c :: rest =>
    if c = '"' then some (String.mk acc.reverse, rest)
    else if c = '\\' then
      match rest with
      | [] => none
      | e :: rest₂ =>
        if e = 'u' then
          match hex4 rest₂ with
          | none => none
          | some (n, rest₃) =>
            if 0xD800 ≤ n && n ≤ 0xDBFF then
              match rest₃ with
              | '\\' :: 'u' :: tail =>
                match hex4 tail with
                | none => none
                | some (m, rest₄) =>
                  if 0xDC00 ≤ m && m ≤ 0xDFFF then
                    scanStringAux fuel
                      (Char.ofNat (0x10000 + (n - 0xD800) * 0x400 + (m - 0xDC00)) :: acc)
                      rest₄
                  else scanStringAux fuel (Char.ofNat n :: acc) rest₃
              | _ => scanStringAux fuel (Char.ofNat n :: acc) rest₃
            else scanStringAux fuel (Char.ofNat n :: acc) rest₃
        else
          match escChar e with
          | some ec => scanStringAux fuel (ec :: acc) rest₂
          | none => none
    else if c.toNat < 0x20 then none
    else scanStringAux fuel (c :: acc) rest

def takeDigits (s : List Char) : List Char × List Char :=
  (s.takeWhile Char.isDigit, s.dropWhile Char.isDigit)

/-- The optional fraction part `(\.[0-9]+)?`: consumed only when complete. -/
def lexFrac (s : List Char) : List Char × List Char :=
  match s with
  | '.' :: t =>
    match t with
    | d :: _ =>
      if d.isDigit then
        let p := takeDigits t
        ('.' :: p.1, p.2)
      else ([], s)
    | [] => ([], s)
  | _ => ([], s)

/-- The optional exponent part `([eE][-+]?[0-9]+)?`: consumed only when complete. -/
def lexExp (s : List Char) : List Char × List Char :=
  match s with
  | e :: t =>
    if e == 'e' || e == 'E' then
      let sp : List Char × List Char :=
        match t with
        | '+' :: u => (['+'], u)
        | '-' :: u => (['-'], u)
        | _ => ([], t)
      match sp.2 with
      | d :: _ =>
        if d.isDigit then
          let p := takeDigits sp.2
          (e :: (sp.1 ++ p.1), p.2)
        else ([], s)
      | [] => ([], s)
    else ([], s)
  | [] => ([], s)

/-- Lex a JSON number per CPython's `NUMBER_RE`, returning its lexeme. -/
def lexNumber (s : List Char) : Option (List Char × List Char) :=
  let np : List Char × List Char :=
    match s with
    | '-' :: t => (['-'], t)
    | _ => ([], s)
  match np.2 with
  | c :: rest =>
    if c = '0' then
      let f := lexFrac rest
      let e := lexExp f.2
      some (np.1 ++ '0' :: (f.1 ++ e.1), e.2)
    else if c.isDigit then
      let p := takeDigits rest
      let f := lexFrac p.2
      let e := lexExp f.2
      some (np.1 ++ c :: (p.1 ++ (f.1 ++ e.1)), e.2)
    else none
  | [] => none

mutual

/-- Scan one JSON value at the current position (no leading whitespace).
The dispatch order matches CPython's scanner: string, object, array,
`null`, `true`, `false`, number, `NaN`, `Infinity`, `-Infinity`. -/
def parseVal : Nat → List Char → Option (Json × List Char)
  | 0, _ => none
  | fuel + 1, s =>
    match s with
    | [] => none
    | '"' :: rest =>
      match scanStringAux (rest.length + 1) [] rest with
      | some (st, r) => some (.str st, r)
      | none => none
    | '{' :: rest => parseObjBody fuel (skipWs rest)
    | '[' :: rest => parseArrBody fuel (skipWs rest)
    | _ =>
      if List.isPrefixOf ['n', 'u', 'l', 'l'] s then some (.null, s.drop 4)
      else if List.isPrefixOf ['t', 'r', 'u', 'e'] s then some (.bool true, s.drop 4)
      else if List.isPrefixOf ['f', 'a', 'l', 's', 'e'] s then some (.bool false, s.drop 5)
      else
        match lexNumber s with
        | some (lex, r) => some (.num (String.mk lex), r)
        | none =>
          if List.isPrefixOf ['N', 'a', 'N'] s then some (.num "NaN", s.drop 3)
          else if List.isPrefixOf ['I', 'n', 'f', 'i', 'n', 'i', 't', 'y'] s then
            some (.num "Infinity", s.drop 8)
          else if List.isPrefixOf ['-', 'I', 'n', 'f', 'i', 'n', 'i', 't', 'y'] s then
            some (.num "-Infinity", s.drop 9)
          else none

/-- After `{` and whitespace: either `}` or the first member. -/
def parseObjBody : Nat → List Char → Option (Json × List Char)
  | 0, _ => none
  | fuel + 1, s =>
    match s with
    | '}' :: r => some (.obj [], r)
    | _ => parseMembers fuel [] s

/-- Members of an object, positioned at the opening quote of a key. -/
def parseMembers : Nat → List (String × Json) → List Char →
    Option (Json × List Char)
  | 0, _, _ => none
  | fuel + 1, acc, s =>
    match s with
    | '"' :: rest =>
      match scanStringAux (rest.length + 1) [] rest with
      | none => none
      | some (key, r₁) =>
        match skipWs r₁ with
        | ':' :: r₂ =>
          match parseVal fuel (skipWs r₂) with
          | none => none
          | some (v, r₃) =>
            match skipWs r₃ with
            | ',' :: r₄ => parseMembers fuel (insertPair acc key v) (skipWs r₄)
            | '}' :: r₄ => some (.obj (insertPair acc key v), r₄)
            | _ => none
        | _ => none
    | _ => none

/-- After `[` and whitespace: either `]` or the first item. -/
def parseArrBody : Nat → List Char → Option (Json × List Char)
  | 0, _ => none
  | fuel + 1, s =>
    match s with
    | ']' :: r => some (.arr [], r)
    | _ => parseItems fuel [] s

/-- Items of an array, positioned at the start of a value. -/
def parseItems : Nat → List Json → List Char → Option (Json × List Char)
  | 0, _, _ => none
  | fuel + 1, acc, s =>
    match parseVal fuel s with
    | none => none
    | some (v, r₁) =>
      match skipWs r₁ with
      | ',' :: r₂ => parseItems fuel (acc ++ [v]) (skipWs r₂)
      | ']' :: r₂ => some (.arr (acc ++ [v]), r₂)
      | _ => none

end

/-- Model of Python `json.loads`: optional whitespace, one JSON value,
optional whitespace, end of input; `none` models a raised `ValueError`. -/
def json_loads (s : String) : Option Json :=
  match parseVal (4 * s.length + 8) (skipWs s.data) with
  | some (j, rest) => if (skipWs rest).isEmpty then some j else none
  | none => none

/-! ### The fenced-code-block search

`re.search(r"(backtick x3)(?:json)?\n(.*?)\n(backtick x3)", text, re.DOTALL)`:
scan start positions left to right; at a position the pattern matches when
the text starts with three backticks, then optionally `json`, then a
newline, and a closing `newline + three backticks` occurs later; the
non-greedy group captures the least interior.  The optional `json` is
tried greedily, but a failure after it cannot be rescued by dropping it
(the branch without `json` demands a newline where `j` stands), so the
two branches below are exhaustive. -/

def backtick : Char := Char.ofNat 96

/-- The closing delimiter `"\n" ++ three backticks` as a character list. -/
def nlFence : List Char := ['\n', backtick, backtick, backtick]

/-- Split at the first occurrence of `pat`, returning the part before it
and the part after it. -/
def firstSplit (pat : List Char) : List Char → Option (List Char × List Char)
  | [] => if pat.isEmpty then some ([], []) else none
  | c :: cs =>
    if List.isPrefixOf pat (c :: cs) then some ([], (c :: cs).drop pat.length)
    else
      match firstSplit pat cs with
      | some (b, a) => some (c :: b, a)
      | none => none

/-- Try to match the fence pattern anchored at this position, returning
the captured interior. -/
def fenceAt (s : List Char) : Option (List Char) :=
  if List.isPrefixOf [backtick, backtick, backtick] s then
    let r := s.drop 3
    if List.isPrefixOf ['j', 's', 'o', 'n', '\n'] r then
      match firstSplit nlFence (r.drop 5) with
      | some (inner, _) => some inner
      | none => none
    else if List.isPrefixOf ['\n'] r then
      match firstSplit nlFence (r.drop 1) with
      | some (inner, _) => some inner
      | none => none
    else none
  else none

/-- `re.search`: try each start position from the left, first match wins. -/
def findFence : List Char → Option (List Char)
  | [] => none
  | c :: cs =>
    match fenceAt (c :: cs) with
    | some inner => some inner
    | none => findFence cs

/-! ### `extract_json_from_response` (src/agents.py lines 18-35) -/

/-- The two-key fallback record returned when all parsing fails. -/
def fallbackRecord (response_text : String) : Json :=
  Json.obj [("error", Json.str "Failed to parse response"),
            ("raw_response", Json.str response_text)]

/-- `extract_json_from_response`: try the first fenced block, then the
whole text, then return the fallback record.  The Python bare `except:`
around each `json.loads` call is the `Option` case split. -/
def extract_json_from_response (response_text : String) : Json :=
  match findFence response_text.data with
  | some inner =>
    match json_loads (String.mk inner) with
    | some j => j
    | none =>
      match json_loads response_text with
      | some j => j
      | none => fallbackRecord response_text
  | none =>
    match json_loads response_text with
    | some j => j
    | none => fallbackRecord response_text

/-! ### The analysis prompt (src/agents.py lines 37-98)

The template text is reproduced byte-for-byte from the f-string in the
source, split at the two interpolation points `{article}` and
`{topic_context}`.  Some template lines carry trailing spaces; they are
kept. -/

def analysisPromptPart1 : String :=
  "Analyze the following article and provide detailed, actionable feedback:\n\nArticle:\n"

def analysisPromptPart2 : String := "\n\nTarget Topic/Search Term: "

def analysisPromptPart3 : String :=
  "\n\nPlease provide a structured analysis covering:

1. contentQuality:
   - depth:\x20
     * rating: (Excellent/Good/Fair/Poor)
     * analysis: How well does it explore the main ideas? What key aspects are missing?
     * missingElements: List specific missing elements
   - accuracy:
     * rating: (Excellent/Good/Fair/Poor)\x20
     * logicalIssues: Are the arguments logically sound? Any unsupported claims?
   - originality:
     * rating: (Excellent/Good/Fair/Poor)
     * uniqueElements: What makes this perspective unique or valuable?
     * limitations: What prevents it from being more original?

2. writingStyle:
   - clarity:
     * rating: (Excellent/Good/Fair/Poor)
     * issues: Are ideas presented logically? Any confusing sections?
   - engagement:
     * rating: (Excellent/Good/Fair/Poor)
     * weaknesses: What specific elements make it compelling or where does it fall flat?
   - flow:
     * rating: (Excellent/Good/Fair/Poor)
     * issues: How well do paragraphs connect? Where are transitions weak?

3. contentEnhancement:
   - keyTermsNeeded: What important concepts should be better explained?
   - examplesNeeded: Where could specific examples strengthen arguments?
   - counterArgumentsNeeded: What opposing viewpoints should be addressed?
   - supportingEvidenceNeeded: What data or research could reinforce points?

4. searchRankingAnalysis:
   - relevanceScore: (0-10) How well does this match the target topic?
   - currentRankingPrediction: Where would this rank on page 1-10+ for the topic?
   - competitorAnalysis: What type of content currently ranks well for this topic?
   - rankingImprovement: Specific changes needed to rank higher
   - searchIntent: Does this match what people searching for this topic want?
   - keywordGaps: What important keywords/phrases are missing?

5. improvementActions:
   - Each item should have: priority (High/Medium/Low), action, impact
   - Provide at least 5 concrete, actionable steps
   - Focus on changes that would improve search ranking AND content quality

6. qualityAssessment:
   - score: (0-100)
   - explanation: Brief explanation of the score
   - strengths: Top 3 strengths\x20\x20
   - immediateImprovements: Top 3 areas needing immediate improvement

Format your response as a JSON object with these exact keys. Do not wrap the JSON in code blocks. Be specific and actionable in your suggestions, especially for search ranking improvements."

/-- The placeholder used when no topic is supplied. -/
def topicPlaceholder : String := "the main theme suggested by this content"

/-- `create_analysis_prompt(article, topic=None)`.  The Python expression
`topic if topic else <placeholder>` is a truthiness test: both `None` and
the empty string select the placeholder. -/
def create_analysis_prompt (article : String) (topic : Option String) : String :=
  let topic_context :=
    match topic with
    | some t => if t = "" then topicPlaceholder else t
    | none => topicPlaceholder
  analysisPromptPart1 ++ article ++ analysisPromptPart2 ++ topic_context ++
    analysisPromptPart3

/-! ### A model of `json.dumps(x, indent=2)`

With an indent, CPython uses separators `(",", ": ")`, a newline plus
per-level indentation before every container element, and prints empty
containers inline.  `ensure_ascii` escaping: quote, backslash, the five
short escapes, and every code point outside 0x20-0x7E as `\uXXXX`
(surrogate pairs above 0xFFFF).  Numbers print their stored lexeme. -/

def hexDigitChar (n : Nat) : Char :=
  if n < 10 then Char.ofNat (48 + n) else Char.ofNat (87 + n)

def hex4Str (n : Nat) : String :=
  String.mk [hexDigitChar (n / 4096 % 16), hexDigitChar (n / 256 % 16),
             hexDigitChar (n / 16 % 16), hexDigitChar (n % 16)]

def escapeAscii (c : Char) : String :=
  if c = '"' then "\\\""
  else if c = '\\' then "\\\\"
  else if c = '\n' then "\\n"
  else if c = '\t' then "\\t"
  else if c = '\r' then "\\r"
  else if c.toNat = 8 then "\\b"
  else if c.toNat = 12 then "\\f"
  else if c.toNat < 0x20 then "\\u" ++ hex4Str c.toNat
  else if c.toNat ≤ 0x7E then String.singleton c
  else if c.toNat ≤ 0xFFFF then "\\u" ++ hex4Str c.toNat
  else
    let n := c.toNat - 0x10000
    "\\u" ++ hex4Str (0xD800 + n / 0x400) ++ "\\u" ++ hex4Str (0xDC00 + n % 0x400)

def dumpsStr (s : String) : String :=
  "\"" ++ String.join (s.data.map escapeAscii) ++ "\""

def indentStr (n : Nat) : String := String.mk (List.replicate (2 * n) ' ')

mutual

def dumpsVal : Nat → Json → String
  | _, .null => "null"
  | _, .bool true => "true"
  | _, .bool false => "false"
  | _, .num lex => lex
  | _, .str s => dumpsStr s
  | _, .arr [] => "[]"
  | level, .arr (x :: xs) =>
    "[\n" ++ indentStr (level + 1) ++ dumpsItems (level + 1) x xs ++ "\n" ++
      indentStr level ++ "]"
  | _, .obj [] => "\x7b\x7d"
  | level, .obj (m :: ms) =>
    "\x7b\n" ++ indentStr (level + 1) ++ dumpsMembers (level + 1) m ms ++ "\n" ++
      indentStr level ++ "\x7d"
termination_by _ j => sizeOf j
decreasing_by all_goals (simp_wf <;> omega)

def dumpsItems : Nat → Json → List Json → String
  | level, x, [] => dumpsVal level x
  | level, x, y :: ys =>
    dumpsVal level x ++ ",\n" ++ indentStr level ++ dumpsItems level y ys
termination_by _ x xs => sizeOf x + sizeOf xs
decreasing_by all_goals (simp_wf <;> omega)

def dumpsMembers : Nat → String × Json → List (String × Json) → String
  | level, (k, v), [] => dumpsStr k ++ ": " ++ dumpsVal level v
  | level, (k, v), n :: ns =>
    dumpsStr k ++ ": " ++ dumpsVal level v ++ ",\n" ++ indentStr level ++
      dumpsMembers level n ns
termination_by _ m ms => sizeOf m + sizeOf ms
decreasing_by all_goals (simp_wf <;> omega)

end

/-- `json.dumps(j, indent=2)`. -/
def json_dumps (j : Json) : String := dumpsVal 0 j

/-! ### The comparison prompt (src/agents.py lines 117-162)

Template text reproduced byte-for-byte, split at the three placeholders
`{openai_analysis}`, `{anthropic_analysis}`, `{topic}`, which langchain
fills by ordinary `str.format`. -/

def comparisonPromptPart1 : String :=
  "Compare the following two analyses of an article and provide a comprehensive improvement plan:\n\nOpenAI Analysis:\n"

def comparisonPromptPart2 : String := "\n\nAnthropic Analysis:\n"

def comparisonPromptPart3 : String := "\n\nTarget Topic: "

def comparisonPromptPart4 : String :=
  "\n\nPlease provide:

1. keyInsights:
   - agreement: Where do the analyses agree?
   - disagreement: Where do they differ significantly?
   - mostActionableFeedback: Which model provided more specific, actionable advice?

2. searchRankingStrategy:
   - currentPosition: Based on both analyses, where would this content likely rank?
   - topCompetitors: What type of content would outrank this?
   - quickWins: 3 fastest changes to improve ranking
   - longTermStrategy: Major content additions needed for top 3 ranking
   - contentGaps: What\x27s missing compared to top-ranking content?

3. prioritizedImprovementPlan:
   - immediateActions: (High impact, both models agree)
     * List specific changes with exact implementation steps
   - secondaryImprovements: (High value from either analysis)
     * Include specific examples and recommendations\x20\x20
   - optionalEnhancements: (Lower priority but still valuable)

4. contentPositioning:
   - bestAspectsToPreserve: What should definitely be kept?
   - criticalAreasToRevise: What must be changed for better ranking?
   - uniqueAngle: How to differentiate from competitors?
   - targetAudience: Who should this content serve?

5. finalAssessment:
   - combinedQualityScore: (Weighted average with explanation)
   - combinedRankingPrediction: Realistic ranking expectation after improvements
   - confidenceLevel: How confident are you in these recommendations?
   - expectedTimeToRank: How long might improvements take to show results?

Format your response as a JSON object. Do not wrap the JSON in code blocks. Focus on specific, actionable improvements that will help with both content quality and search ranking."

/-- `str.format` renders Python `None` as the string `None`.  The source
reads `state.get("topic", "the main theme")`, but the `topic` key is always
present in the state (set by `initial_state`), so the `.get` default is
dead and a missing topic reaches the template as `None`. -/
def pyFormatTopic : Option String → String
  | none => "None"
  | some t => t

/-- The fully rendered synthesis prompt of `compare_and_summarize`. -/
def create_comparison_prompt (openai_analysis anthropic_analysis : Json)
    (topic : Option String) : String :=
  comparisonPromptPart1 ++ json_dumps openai_analysis ++
    comparisonPromptPart2 ++ json_dumps anthropic_analysis ++
    comparisonPromptPart3 ++ pyFormatTopic topic ++ comparisonPromptPart4

/-! ### Pipeline state and steps (src/agents.py lines 10-16, 100-173)

A raised exception from an external call is an `Except.error`; the two
chat transports are oracles mapping the rendered prompt to either the
reply text (`response.content`) or a raised error.  Langchain template
plumbing (`ChatPromptTemplate.from_template` / `format_messages`) is
modelled as passing the rendered prompt text through unchanged. -/

/-- A raised Python exception (its message). -/
structure PyError where
  msg : String

/-- The three external chat calls: the two analysis transports and the
synthesis transport (`gpt-4o-mini`, `claude-3-5-sonnet-latest`,
`gpt-4o-mini` at temperature 0 in the source). -/
structure Providers where
  openaiA : String → Except PyError String
  anthropicB : String → Except PyError String
  openaiC : String → Except PyError String

/-- `AgentState` (the TypedDict).  `BaseMessage` content is opaque here;
the `messages` field is never used by any step. -/
structure AgentState where
  messages : List String
  article : String
  topic : Option String
  openai_analysis : Json
  anthropic_analysis : Json
  final_comparison : Json

def analyze_with_openai (P : Providers) (state : AgentState) :
    Except PyError AgentState :=
  match P.openaiA (create_analysis_prompt state.article state.topic) with
  | .error e => .error e
  | .ok resp =>
    .ok { state with openai_analysis := extract_json_from_response resp }

def analyze_with_anthropic (P : Providers) (state : AgentState) :
    Except PyError AgentState :=
  match P.anthropicB (create_analysis_prompt state.article state.topic) with
  | .error e => .error e
  | .ok resp =>
    .ok { state with anthropic_analysis := extract_json_from_response resp }

def compare_and_summarize (P : Providers) (state : AgentState) :
    Except PyError AgentState :=
  match P.openaiC (create_comparison_prompt state.openai_analysis
      state.anthropic_analysis state.topic) with
  | .error e => .error e
  | .ok resp =>
    .ok { state with final_comparison := extract_json_from_response resp }

/-! ### The task graph (src/agents.py lines 175-194)

A langgraph `Graph` is nodes, edges, an entry point and a finish point;
`compile()` yields a runnable that starts at the entry point, applies the
current node to the state, follows the unique outgoing edge, and stops
after the finish point.  Langgraph aborts with `GraphRecursionError`
after its default recursion limit of 25 steps. -/

structure PGraph where
  nodes : List (String × (AgentState → Except PyError AgentState))
  edges : List (String × String)
  entry : Option String
  finish : Option String

def PGraph.add_node (g : PGraph) (name : String)
    (f : AgentState → Except PyError AgentState) : PGraph :=
  { g with nodes := g.nodes ++ [(name, f)] }

def PGraph.add_edge (g : PGraph) (src dst : String) : PGraph :=
  { g with edges := g.edges ++ [(src, dst)] }

def PGraph.set_entry_point (g : PGraph) (name : String) : PGraph :=
  { g with entry := some name }

def PGraph.set_finish_point (g : PGraph) (name : String) : PGraph :=
  { g with finish := some name }

/-- `create_analysis_graph`: three nodes, the two edges
openai_analysis → anthropic_analysis → compare, entry at the first node and
finish at the last, exactly as in the source. -/
def create_analysis_graph (P : Providers) : PGraph :=
  ((((((({ nodes := [], edges := [], entry := none, finish := none } :
        PGraph).add_node "openai_analysis" (analyze_with_openai P)).add_node
        "anthropic_analysis" (analyze_with_anthropic P)).add_node
        "compare" (compare_and_summarize P)).add_edge
        "openai_analysis" "anthropic_analysis").add_edge
        "anthropic_analysis" "compare").set_entry_point
        "openai_analysis").set_finish_point "compare"

def getNode : List (String × (AgentState → Except PyError AgentState)) →
    String → Option (AgentState → Except PyError AgentState)
  | [], _ => none
  | (n, f) :: rest, name => if n = name then some f else getNode rest name

def nextEdge : List (String × String) → String → Option String
  | [], _ => none
  | (src, dst) :: rest, name => if src = name then some dst else nextEdge rest name

def runFrom (g : PGraph) : Nat → String → AgentState → Except PyError AgentState
  | 0, _, _ => .error { msg := "GraphRecursionError" }
  | fuel + 1, name, st =>
    match getNode g.nodes name with
    | none => .error { msg := "unknown node" }
    | some f =>
      match f st with
      | .error e => .error e
      | .ok st₁ =>
        if g.finish = some name then .ok st₁
        else
          match nextEdge g.edges name with
          | none => .error { msg := "dead end" }
          | some nxt => runFrom g fuel nxt st₁

/-- Running the compiled graph (`chain.invoke`). -/
def runGraph (g : PGraph) (st : AgentState) : Except PyError AgentState :=
  match g.entry with
  | none => .error { msg := "no entry point" }
  | some e => runFrom g 25 e st

/-- The node names in the order the compiled graph visits them. -/
def execOrderFrom (g : PGraph) : Nat → String → List String
  | 0, _ => []
  | fuel + 1, name =>
    name ::
      (if g.finish = some name then []
       else
         match nextEdge g.edges name with
         | some nxt => execOrderFrom g fuel nxt
         | none => [])

def execOrder (g : PGraph) : List String :=
  match g.entry with
  | none => []
  | some e => execOrderFrom g 25 e

/-! ### The service boundary (src/main.py lines 31-60) -/

/-- The `initial_state` built inside `analyze_text`: the article is stored
verbatim (no trimming), the three analysis mappings start as empty dicts. -/
def initial_state (text : String) (topic : Option String) : AgentState :=
  ({ messages := [], article := text, topic := topic, openai_analysis := Json.obj [], anthropic_analysis := Json.obj [], final_comparison := Json.obj [] } : AgentState)

/-- Errors escaping `analyze_text`: the explicit `ValueError` for short
input, or any exception propagating out of the pipeline. -/
inductive AppError where
  | valueError (msg : String)
  | exn (e : PyError)

def tooShortMsg : String :=
  "Article text is too short. Please provide at least 50 characters."

/-- `analyze_text`: validate the trimmed length, run the graph on a fresh
state, and project the three analysis mappings. -/
def analyze_text (P : Providers) (text : String) (topic : Option String) :
    Except AppError (Json × Json × Json) :=
  if (pyStrip text).length < 50 then .error (.valueError tooShortMsg)
  else
    match runGraph (create_analysis_graph P) (initial_state text topic) with
    | .error e => .error (.exn e)
    | .ok fs => .ok (fs.openai_analysis, fs.anthropic_analysis, fs.final_comparison)

/-- The HTTP-level outcome of `POST /analyze`: a 200 body with the three
mappings, a 400 (`HTTPException` from `ValueError`), or a 500
(`HTTPException` from any other exception). -/
inductive ApiResult where
  | ok (openai_analysis anthropic_analysis final_comparison : Json)
  | clientError (detail : String)
  | serverError (detail : String)

/-- `analyze_article`: the endpoint handler's try/except wrapping. -/
def analyze_article (P : Providers) (text : String) (topic : Option String) :
    ApiResult :=
  match analyze_text P text topic with
  | .ok (a, b, c) => .ok a b c
  | .error (.valueError m) => .clientError m
  | .error (.exn e) => .serverError ("Analysis failed: " ++ e.msg)

/-! ### Substring search (used to state properties of the prompt text) -/

/-- Does `pat` occur as a contiguous substring of `s`? -/
def containsSub (pat s : String) : Bool :=
  (firstSplit pat.data s.data).isSome

/-! ### Concrete data for witnesses -/

/-- A demonstration article longer than the fifty-character minimum. -/
def demoArticle : String :=
  "This demonstration article is comfortably longer than the fifty character minimum."

/-- The demonstration article with leading and trailing whitespace. -/
def demoArticlePadded : String := "  " ++ demoArticle ++ "\n\t"

/-- An input whose trimmed length is exactly 49 characters. -/
def demoShort49 : String := " " ++ String.mk (List.replicate 49 'a') ++ " "

/-- An input whose trimmed length is exactly 50 characters. -/
def demoExact50 : String := String.mk (List.replicate 50 'b')

/-- Providers whose three calls all succeed: a bare JSON reply, a fenced
JSON reply, and a bare JSON reply. -/
def okProviders : Providers :=
  { openaiA := fun _ => .ok "\x7b\"qa\": 1\x7d"
    anthropicB := fun _ => .ok "```json\n\x7b\"qb\": 2\x7d\n```"
    openaiC := fun _ => .ok "\x7b\"final\": 3\x7d" }

/-- Providers whose first call replies with a non-JSON refusal. -/
def refusalProviders : Providers :=
  { okProviders with openaiA := fun _ => .ok "I cannot help with that." }

/-- Providers whose first call raises a transport error. -/
def failingProviders : Providers :=
  { okProviders with openaiA := fun _ => .error { msg := "connection timeout" } }

/-- The state after the first step under `okProviders`. -/
def demoStateA : AgentState :=
  { initial_state demoArticle none with
      openai_analysis := Json.obj [("qa", Json.num "1")] }

/-- The state after the second step under `okProviders`. -/
def demoStateB : AgentState :=
  { demoStateA with anthropic_analysis := Json.obj [("qb", Json.num "2")] }

/-- The final state under `okProviders`. -/
def demoStateFinal : AgentState :=
  { demoStateB with final_comparison := Json.obj [("final", Json.num "3")] }

/-! ### Lemmas about the fence search -/

/-- Three backticks are not a prefix of a backtick-free chunk followed by
the closing delimiter (which starts with a newline). -/
lemma isPrefixOf_bbb_eq_false (inner rest : List Char)
    (h : ∀ c ∈ inner, c ≠ backtick) :
    List.isPrefixOf [backtick, backtick, backtick] (inner ++ nlFence ++ rest) = false := by
  cases inner with
  | nil => simp [nlFence, List.isPrefixOf, backtick]
  | cons d tl =>
    have hd : d ≠ backtick := h d (List.mem_cons_self d tl)
    simp [List.isPrefixOf, backtick]
    intro hb
    exact absurd hb.symm hd

/-- Splitting at the closing delimiter finds exactly the backtick-free
interior: the first occurrence of `nlFence` is the appended one. -/
lemma firstSplit_clean (inner rest : List Char)
    (h : ∀ c ∈ inner, c ≠ backtick) :
    firstSplit nlFence (inner ++ nlFence ++ rest) = some (inner, rest) := by
  induction inner with
  | nil =>
    show firstSplit nlFence (nlFence ++ rest) = some ([], rest)
    simp [nlFence, firstSplit, List.isPrefixOf]
  | cons c tl ih =>
    have hpre : List.isPrefixOf nlFence (c :: (tl ++ nlFence ++ rest)) = false := by
      have : List.isPrefixOf [backtick, backtick, backtick] (tl ++ nlFence ++ rest) = false :=
        isPrefixOf_bbb_eq_false tl rest (fun x hx => h x (List.mem_cons_of_mem c hx))
      simp [nlFence, List.isPrefixOf]
      intro _
      simpa [List.isPrefixOf] using this
    have ih₁ := ih (fun x hx => h x (List.mem_cons_of_mem c hx))
    show firstSplit nlFence (c :: (tl ++ nlFence ++ rest)) = some (c :: tl, rest)
    rw [firstSplit, hpre]
    simp only [List.append_assoc] at ih₁
    simp [ih₁]

/-- The left-to-right search skips a backtick-free prelude. -/
lemma findFence_append (pre body : List Char)
    (h : ∀ c ∈ pre, c ≠ backtick) :
    findFence (pre ++ body) = findFence body := by
  induction pre with
  | nil => rfl
  | cons c tl ih =>
    have hc : c ≠ backtick := h c (List.mem_cons_self c tl)
    have hAt : fenceAt (c :: (tl ++ body)) = none := by
      have : List.isPrefixOf [backtick, backtick, backtick] (c :: (tl ++ body)) = false := by
        simp [List.isPrefixOf]
        intro hb
        exact absurd hb.symm hc
      simp [fenceAt, this]
    show findFence (c :: (tl ++ body)) = findFence body
    rw [findFence, hAt]
    exact ih (fun x hx => h x (List.mem_cons_of_mem c hx))

/-! ### Claim C1 -/

/-- Claim C1, counterexample: on the input `"3"` (a JSON number, no fence),
`extract_json_from_response` returns the parsed JSON number `3`, which is
not a mapping — so "returns a mapping" fails as universally stated. -/
theorem extract_nonmapping_counterexample :
    extract_json_from_response "3" = Json.num "3" ∧
    Json.isObj (extract_json_from_response "3") = false := ⟨rfl, rfl⟩

/-- Claim C1 (amended): for every input string the extractor is total —
it never raises and returns either a successfully parsed JSON value
(the fenced interior or the whole text; a mapping whenever that value is
an object, but possibly a non-mapping JSON value such as a number) or
exactly the two-key fallback record. -/
theorem extract_totality (s : String) :
    extract_json_from_response s = fallbackRecord s ∨
    (∃ inner, findFence s.data = some inner ∧
        json_loads (String.mk inner) = some (extract_json_from_response s)) ∨
    json_loads s = some (extract_json_from_response s) := by
  unfold extract_json_from_response
  cases h₁ : findFence s.data with
  | none =>
    cases h₂ : json_loads s with
    | none => left; simp [h₂]
    | some j => right; right; simp [h₂]
  | some inner =>
    cases h₂ : json_loads (String.mk inner) with
    | none =>
      cases h₃ : json_loads s with
      | none => left; simp [h₂, h₃]
      | some j => right; right; simp [h₂, h₃]
    | some j => right; left; exact ⟨inner, rfl, by simp [h₂]⟩

/-! ### Claim C2 -/

/-- Claim C2, counterexample: the regex accepts only the tag `json` or no
tag, not an arbitrary language tag.  This input contains a triple-backtick
fenced block tagged `python` whose interior is valid JSON, yet the fence
search finds nothing and the extractor returns the fallback record rather
than the parsed interior. -/
theorem extract_langtag_counterexample :
    json_loads "\x7b\"a\": 1\x7d" = some (Json.obj [("a", Json.num "1")]) ∧
    findFence ("```python\n\x7b\"a\": 1\x7d\n```").data = none ∧
    extract_json_from_response "```python\n\x7b\"a\": 1\x7d\n```" =
      Json.obj [("error", Json.str "Failed to parse response"),
                ("raw_response", Json.str "```python\n\x7b\"a\": 1\x7d\n```")] :=
  ⟨rfl, rfl, rfl⟩

/-- Claim C2 (amended): only for a fenced block whose info string is
`json` or empty — not an arbitrary language tag — does the fenced step
apply: if the fence search finds a block whose interior parses as JSON,
the extractor returns exactly that parsed value (whatever prose surrounds
the fence); and the fence search matches the first such block: after a
backtick-free prelude `pre`, a fence opened by three backticks and a bare
newline, or by three backticks, `json` and a newline, with backtick-free
interior `inner`, is matched with exactly that interior, for every
continuation `rest` — including continuations holding further fenced
blocks. -/
theorem extract_fenced_priority :
    (∀ (s : String) (inner : List Char) (j : Json),
        findFence s.data = some inner →
        json_loads (String.mk inner) = some j →
        extract_json_from_response s = j) ∧
    (∀ pre inner rest : List Char,
        (∀ c ∈ pre, c ≠ backtick) →
        (∀ c ∈ inner, c ≠ backtick) →
        findFence (pre ++ backtick :: backtick :: backtick :: '\n' ::
            (inner ++ nlFence ++ rest)) = some inner) ∧
    (∀ pre inner rest : List Char,
        (∀ c ∈ pre, c ≠ backtick) →
        (∀ c ∈ inner, c ≠ backtick) →
        findFence (pre ++ backtick :: backtick :: backtick ::
            'j' :: 's' :: 'o' :: 'n' :: '\n' ::
            (inner ++ nlFence ++ rest)) = some inner) := by
  refine ⟨?_, ?_, ?_⟩
  · intro s inner j h₁ h₂
    unfold extract_json_from_response
    rw [h₁]
    simp [h₂]
  · intro pre inner rest hpre hinner
    rw [findFence_append pre _ hpre]
    rw [findFence]
    have hAt : fenceAt (backtick :: backtick :: backtick :: '\n' ::
        (inner ++ nlFence ++ rest)) = some inner := by
      have h₃ : List.isPrefixOf [backtick, backtick, backtick]
          (backtick :: backtick :: backtick :: '\n' :: (inner ++ nlFence ++ rest)) = true := by
        simp [List.isPrefixOf]
      have h₄ : List.isPrefixOf ['j', 's', 'o', 'n', '\n']
          ('\n' :: (inner ++ nlFence ++ rest)) = false := by
        simp [List.isPrefixOf]
      have h₅ : List.isPrefixOf ['\n'] ('\n' :: (inner ++ nlFence ++ rest)) = true := by
        simp [List.isPrefixOf]
      simp only [fenceAt, h₃, if_true, List.drop_succ_cons, List.drop_zero, h₄, h₅,
        Bool.false_eq_true, if_false, if_true]
      rw [firstSplit_clean inner rest hinner]
    rw [hAt]
  · intro pre inner rest hpre hinner
    rw [findFence_append pre _ hpre]
    rw [findFence]
    have hAt : fenceAt (backtick :: backtick :: backtick ::
        'j' :: 's' :: 'o' :: 'n' :: '\n' :: (inner ++ nlFence ++ rest)) = some inner := by
      have h₃ : List.isPrefixOf [backtick, backtick, backtick]
          (backtick :: backtick :: backtick ::
            'j' :: 's' :: 'o' :: 'n' :: '\n' :: (inner ++ nlFence ++ rest)) = true := by
        simp [List.isPrefixOf]
      have h₄ : List.isPrefixOf ['j', 's', 'o', 'n', '\n']
          ('j' :: 's' :: 'o' :: 'n' :: '\n' :: (inner ++ nlFence ++ rest)) = true := by
        simp [List.isPrefixOf]
      simp only [fenceAt, h₃, if_true, List.drop_succ_cons, List.drop_zero, h₄]
      rw [firstSplit_clean inner rest hinner]
    rw [hAt]

/-- Claim C2, witness: a `json`-tagged first fence with prose before and
after, plus a second (tagless) fenced block in the trailing prose; the
extractor returns the first block's JSON. -/
theorem extract_fenced_priority_witness :
    extract_json_from_response
        "Here you go: ```json\n[1, 2]\n``` and also ```\n\"second\"\n``` bye" =
      Json.arr [Json.num "1", Json.num "2"] := by
  apply extract_fenced_priority.1 _ ("[1, 2]".data)
  · have h := extract_fenced_priority.2.2 ("Here you go: ".data) ("[1, 2]".data)
      (" and also ```\n\"second\"\n``` bye".data) (by decide) (by decide)
    exact h
  · rfl

/-! ### Claim C3 -/

/-- Claim C3: whenever the fenced parse fails (no fence found, or its
interior is not valid JSON) and the whole text is not valid JSON either,
the extractor returns exactly the two-key fallback mapping carrying the
original, unmodified input text. -/
theorem extract_fallback_exact (s : String)
    (hfence : ∀ inner, findFence s.data = some inner →
        json_loads (String.mk inner) = none)
    (hwhole : json_loads s = none) :
    extract_json_from_response s =
      Json.obj [("error", Json.str "Failed to parse response"),
                ("raw_response", Json.str s)] := by
  unfold extract_json_from_response
  cases h₁ : findFence s.data with
  | none => simp [hwhole, fallbackRecord]
  | some inner => simp [hfence inner h₁, hwhole, fallbackRecord]

/-- Claim C3, witness: the empty string has no fence and is not JSON, so
the result is exactly the fallback record. -/
theorem extract_fallback_exact_witness :
    extract_json_from_response "" =
      Json.obj [("error", Json.str "Failed to parse response"),
                ("raw_response", Json.str "")] :=
  extract_fallback_exact "" (fun inner h => Option.noConfusion h) rfl

/-! ### Claim C8 -/

/-- A pattern occurring between two chunks is always found. -/
lemma firstSplit_isSome (pat l r : List Char) :
    (firstSplit pat (l ++ pat ++ r)).isSome = true := by
  induction l with
  | nil =>
    cases pat with
    | nil => cases r <;> simp [firstSplit]
    | cons p pt =>
      have h : List.isPrefixOf (p :: pt) ((p :: pt) ++ r) = true := by
        simp
      show (firstSplit (p :: pt) (p :: (pt ++ r))).isSome = true
      rw [firstSplit]
      simp [h]
  | cons c l ih =>
    show (firstSplit pat (c :: (l ++ pat ++ r))).isSome = true
    rw [firstSplit]
    by_cases h : List.isPrefixOf pat (c :: (l ++ pat ++ r)) = true
    · rw [if_pos h]
      rfl
    · rw [if_neg h]
      cases hfs : firstSplit pat (l ++ pat ++ r) with
      | none => rw [hfs] at ih; exact absurd ih (by simp)
      | some p =>
        obtain ⟨b, a⟩ := p
        rfl

/-- Claim C8: the prompt builder is a pure function — equal `(article,
topic)` inputs give byte-identical prompt text on repeated calls — and
when the topic is absent the fixed placeholder phrase is substituted into
the prompt. -/
theorem prompt_deterministic :
    (∀ (article : String) (topic : Option String),
        create_analysis_prompt article topic = create_analysis_prompt article topic) ∧
    (∀ article : String,
        containsSub topicPlaceholder (create_analysis_prompt article none) = true) := by
  refine ⟨fun _ _ => rfl, fun article => ?_⟩
  show (firstSplit topicPlaceholder.data
      (create_analysis_prompt article none).data).isSome = true
  have h : (create_analysis_prompt article none).data =
      (analysisPromptPart1.data ++ article.data ++ analysisPromptPart2.data) ++
        topicPlaceholder.data ++ analysisPromptPart3.data := by
    show (analysisPromptPart1 ++ article ++ analysisPromptPart2 ++
        topicPlaceholder ++ analysisPromptPart3).data = _
    simp [String.data_append]
  rw [h]
  exact firstSplit_isSome topicPlaceholder.data
    (analysisPromptPart1.data ++ article.data ++ analysisPromptPart2.data)
    analysisPromptPart3.data

/-! ### The compiled graph is the three-step sequential composition -/

/-- Running the compiled graph on a state is exactly: the openai step,
then the anthropic step, then the comparison step, each aborting the run
on a raised error. -/
lemma runGraph_create (P : Providers) (st : AgentState) :
    runGraph (create_analysis_graph P) st =
      match analyze_with_openai P st with
      | .error e => .error e
      | .ok s₁ =>
        match analyze_with_anthropic P s₁ with
        | .error e => .error e
        | .ok s₂ =>
          match compare_and_summarize P s₂ with
          | .error e => .error e
          | .ok s₃ => .ok s₃ := rfl

/-! ### Claim C7 -/

/-- Claim C7: every successful run visits the nodes in the fixed order
openai_analysis, anthropic_analysis, compare; the anthropic step (which
performs the `analysisB` extraction) runs on the state `stA` produced by
the openai step, in which `openai_analysis` has already been written as
the extraction of the first reply; and the comparison step runs on a state
`stB` in which both analysis fields have been written and are preserved
into the final state. -/
theorem pipeline_ordering (P : Providers) (st fs : AgentState)
    (hrun : runGraph (create_analysis_graph P) st = .ok fs) :
    execOrder (create_analysis_graph P) =
      ["openai_analysis", "anthropic_analysis", "compare"] ∧
    ∃ stA stB,
      analyze_with_openai P st = .ok stA ∧
      analyze_with_anthropic P stA = .ok stB ∧
      compare_and_summarize P stB = .ok fs ∧
      (∃ rA, P.openaiA (create_analysis_prompt st.article st.topic) = .ok rA ∧
          stA.openai_analysis = extract_json_from_response rA) ∧
      stB.openai_analysis = stA.openai_analysis ∧
      (∃ rB, P.anthropicB (create_analysis_prompt stA.article stA.topic) = .ok rB ∧
          stB.anthropic_analysis = extract_json_from_response rB) ∧
      fs.openai_analysis = stB.openai_analysis ∧
      fs.anthropic_analysis = stB.anthropic_analysis := by
  rw [runGraph_create] at hrun
  refine ⟨rfl, ?_⟩
  cases h₁ : analyze_with_openai P st with
  | error e =>
    rw [h₁] at hrun
    exact Except.noConfusion hrun
  | ok stA =>
    rw [h₁] at hrun
    have hrun₂ :
        (match analyze_with_anthropic P stA with
          | Except.error e => Except.error e
          | Except.ok s₂ =>
            match compare_and_summarize P s₂ with
            | Except.error e => Except.error e
            | Except.ok s₃ => Except.ok s₃) = Except.ok fs := hrun
    cases h₂ : analyze_with_anthropic P stA with
    | error e =>
      rw [h₂] at hrun₂
      exact Except.noConfusion hrun₂
    | ok stB =>
      rw [h₂] at hrun₂
      have hrun₃ :
          (match compare_and_summarize P stB with
            | Except.error e => Except.error e
            | Except.ok s₃ => Except.ok s₃) = Except.ok fs := hrun₂
      cases h₃ : compare_and_summarize P stB with
      | error e =>
        rw [h₃] at hrun₃
        exact Except.noConfusion hrun₃
      | ok stC =>
        rw [h₃] at hrun₃
        have hfs : stC = fs := by
          have h₄ : Except.ok (ε := PyError) stC = Except.ok fs := hrun₃
          cases h₄
          rfl
        subst hfs
        refine ⟨stA, stB, rfl, h₂, h₃, ?_, ?_, ?_, ?_, ?_⟩
        · have h₁x : (match P.openaiA (create_analysis_prompt st.article st.topic) with
              | Except.error e => Except.error e
              | Except.ok resp => Except.ok
                  { st with openai_analysis := extract_json_from_response resp }) =
                Except.ok stA := h₁
          cases hrA : P.openaiA (create_analysis_prompt st.article st.topic) with
          | error e =>
            rw [hrA] at h₁x
            exact Except.noConfusion h₁x
          | ok rA =>
            rw [hrA] at h₁x
            have h₁y : Except.ok (ε := PyError)
                { st with openai_analysis := extract_json_from_response rA } =
                Except.ok stA := h₁x
            cases h₁y
            exact ⟨rA, rfl, rfl⟩
        · have h₂x : (match P.anthropicB (create_analysis_prompt stA.article stA.topic) with
              | Except.error e => Except.error e
              | Except.ok resp => Except.ok
                  { stA with anthropic_analysis := extract_json_from_response resp }) =
                Except.ok stB := h₂
          cases hrB : P.anthropicB (create_analysis_prompt stA.article stA.topic) with
          | error e =>
            rw [hrB] at h₂x
            exact Except.noConfusion h₂x
          | ok rB =>
            rw [hrB] at h₂x
            have h₂y : Except.ok (ε := PyError)
                { stA with anthropic_analysis := extract_json_from_response rB } =
                Except.ok stB := h₂x
            cases h₂y
            rfl
        · have h₂x : (match P.anthropicB (create_analysis_prompt stA.article stA.topic) with
              | Except.error e => Except.error e
              | Except.ok resp => Except.ok
                  { stA with anthropic_analysis := extract_json_from_response resp }) =
                Except.ok stB := h₂
          cases hrB : P.anthropicB (create_analysis_prompt stA.article stA.topic) with
          | error e =>
            rw [hrB] at h₂x
            exact Except.noConfusion h₂x
          | ok rB =>
            rw [hrB] at h₂x
            have h₂y : Except.ok (ε := PyError)
                { stA with anthropic_analysis := extract_json_from_response rB } =
                Except.ok stB := h₂x
            cases h₂y
            exact ⟨rB, rfl, rfl⟩
        · have h₃x : (match P.openaiC (create_comparison_prompt stB.openai_analysis
                stB.anthropic_analysis stB.topic) with
              | Except.error e => Except.error e
              | Except.ok resp => Except.ok
                  { stB with final_comparison := extract_json_from_response resp }) =
                Except.ok stC := h₃
          cases hrC : P.openaiC (create_comparison_prompt stB.openai_analysis
              stB.anthropic_analysis stB.topic) with
          | error e =>
            rw [hrC] at h₃x
            exact Except.noConfusion h₃x
          | ok rC =>
            rw [hrC] at h₃x
            have h₃y : Except.ok (ε := PyError)
                { stB with final_comparison := extract_json_from_response rC } =
                Except.ok stC := h₃x
            cases h₃y
            rfl
        · have h₃x : (match P.openaiC (create_comparison_prompt stB.openai_analysis
                stB.anthropic_analysis stB.topic) with
              | Except.error e => Except.error e
              | Except.ok resp => Except.ok
                  { stB with final_comparison := extract_json_from_response resp }) =
                Except.ok stC := h₃
          cases hrC : P.openaiC (create_comparison_prompt stB.openai_analysis
              stB.anthropic_analysis stB.topic) with
          | error e =>
            rw [hrC] at h₃x
            exact Except.noConfusion h₃x
          | ok rC =>
            rw [hrC] at h₃x
            have h₃y : Except.ok (ε := PyError)
                { stB with final_comparison := extract_json_from_response rC } =
                Except.ok stC := h₃x
            cases h₃y
            rfl

/-- Claim C7, witness: under `okProviders` the pipeline runs to the
expected final state with the fixed node order. -/
theorem pipeline_ordering_witness :
    execOrder (create_analysis_graph okProviders) =
      ["openai_analysis", "anthropic_analysis", "compare"] ∧
    ∃ stA stB,
      analyze_with_openai okProviders (initial_state demoArticle none) = .ok stA ∧
      analyze_with_anthropic okProviders stA = .ok stB ∧
      compare_and_summarize okProviders stB = .ok demoStateFinal ∧
      (∃ rA, okProviders.openaiA (create_analysis_prompt
          (initial_state demoArticle none).article
          (initial_state demoArticle none).topic) = .ok rA ∧
          stA.openai_analysis = extract_json_from_response rA) ∧
      stB.openai_analysis = stA.openai_analysis ∧
      (∃ rB, okProviders.anthropicB (create_analysis_prompt stA.article stA.topic) = .ok rB ∧
          stB.anthropic_analysis = extract_json_from_response rB) ∧
      demoStateFinal.openai_analysis = stB.openai_analysis ∧
      demoStateFinal.anthropic_analysis = stB.anthropic_analysis :=
  pipeline_ordering okProviders (initial_state demoArticle none) demoStateFinal (by rfl)

/-! ### Claim C4 -/

/-- Claim C4: when a provider replies with non-JSON text (here the first
provider replying exactly `I cannot help with that.`), the corresponding
analysis field is set to the two-key fallback record, no error reaches the
caller, and the pipeline runs to completion through the remaining steps. -/
theorem parse_failure_recovered (P : Providers) (text : String)
    (topic : Option String) (rB rC : String)
    (hlen : ¬ (pyStrip text).length < 50)
    (hA : P.openaiA (create_analysis_prompt text topic) =
        .ok "I cannot help with that.")
    (hB : ∀ p, P.anthropicB p = .ok rB)
    (hC : ∀ p, P.openaiC p = .ok rC) :
    analyze_article P text topic =
      .ok (Json.obj [("error", Json.str "Failed to parse response"),
                     ("raw_response", Json.str "I cannot help with that.")])
        (extract_json_from_response rB) (extract_json_from_response rC) := by
  have h₁ : analyze_with_openai P (initial_state text topic) =
      Except.ok ({ messages := [], article := text, topic := topic, openai_analysis := extract_json_from_response "I cannot help with that.", anthropic_analysis := Json.obj [], final_comparison := Json.obj [] } : AgentState) := by
    show (match P.openaiA (create_analysis_prompt text topic) with
      | Except.error e => Except.error e
      | Except.ok resp => Except.ok ({ messages := [], article := text, topic := topic, openai_analysis := extract_json_from_response resp, anthropic_analysis := Json.obj [], final_comparison := Json.obj [] } : AgentState)) = _
    rw [hA]
  have h₂ : analyze_with_anthropic P
      ({ messages := [], article := text, topic := topic, openai_analysis := extract_json_from_response "I cannot help with that.", anthropic_analysis := Json.obj [], final_comparison := Json.obj [] } : AgentState) =
      Except.ok ({ messages := [], article := text, topic := topic, openai_analysis := extract_json_from_response "I cannot help with that.", anthropic_analysis := extract_json_from_response rB, final_comparison := Json.obj [] } : AgentState) := by
    show (match P.anthropicB (create_analysis_prompt text topic) with
      | Except.error e => Except.error e
      | Except.ok resp => Except.ok ({ messages := [], article := text, topic := topic, openai_analysis := extract_json_from_response "I cannot help with that.", anthropic_analysis := extract_json_from_response resp, final_comparison := Json.obj [] } : AgentState)) = _
    rw [hB]
  have h₃ : compare_and_summarize P
      ({ messages := [], article := text, topic := topic, openai_analysis := extract_json_from_response "I cannot help with that.", anthropic_analysis := extract_json_from_response rB, final_comparison := Json.obj [] } : AgentState) =
      Except.ok ({ messages := [], article := text, topic := topic, openai_analysis := extract_json_from_response "I cannot help with that.", anthropic_analysis := extract_json_from_response rB, final_comparison := extract_json_from_response rC } : AgentState) := by
    show (match P.openaiC (create_comparison_prompt
        (extract_json_from_response "I cannot help with that.")
        (extract_json_from_response rB) topic) with
      | Except.error e => Except.error e
      | Except.ok resp => Except.ok ({ messages := [], article := text, topic := topic, openai_analysis := extract_json_from_response "I cannot help with that.", anthropic_analysis := extract_json_from_response rB, final_comparison := extract_json_from_response resp } : AgentState)) = _
    rw [hC]
  have hrun : runGraph (create_analysis_graph P) (initial_state text topic) =
      Except.ok ({ messages := [], article := text, topic := topic, openai_analysis := extract_json_from_response "I cannot help with that.", anthropic_analysis := extract_json_from_response rB, final_comparison := extract_json_from_response rC } : AgentState) := by
    rw [runGraph_create, h₁]
    show (match analyze_with_anthropic P
        ({ messages := [], article := text, topic := topic, openai_analysis := extract_json_from_response "I cannot help with that.", anthropic_analysis := Json.obj [], final_comparison := Json.obj [] } : AgentState) with
      | Except.error e => Except.error e
      | Except.ok s₂ =>
        match compare_and_summarize P s₂ with
        | Except.error e => Except.error e
        | Except.ok s₃ => Except.ok s₃) = _
    rw [h₂]
    show (match compare_and_summarize P
        ({ messages := [], article := text, topic := topic, openai_analysis := extract_json_from_response "I cannot help with that.", anthropic_analysis := extract_json_from_response rB, final_comparison := Json.obj [] } : AgentState) with
      | Except.error e => Except.error e
      | Except.ok s₃ => Except.ok s₃) = _
    rw [h₃]
  unfold analyze_article analyze_text
  rw [if_neg hlen, hrun]
  rfl

/-- Claim C4, witness: under `refusalProviders` (first reply is the
refusal) the endpoint still returns a complete result whose first field is
the fallback record. -/
theorem parse_failure_recovered_witness :
    analyze_article refusalProviders demoArticle none =
      .ok (Json.obj [("error", Json.str "Failed to parse response"),
                     ("raw_response", Json.str "I cannot help with that.")])
        (extract_json_from_response "```json\n\x7b\"qb\": 2\x7d\n```")
        (extract_json_from_response "\x7b\"final\": 3\x7d") :=
  parse_failure_recovered refusalProviders demoArticle none
    "```json\n\x7b\"qb\": 2\x7d\n```" "\x7b\"final\": 3\x7d"
    (by decide) rfl (fun _ => rfl) (fun _ => rfl)

/-! ### Claim C5 -/

/-- Claim C5: when any of the three provider calls raises a transport
error, the error is not caught inside the step (the step itself returns
the raised error), the run halts, and the caller gets a server-error
response carrying no analysis state at all (`serverError` holds only a
detail string — no partial subset of the three mappings is returned). -/
theorem transport_error_halts (P : Providers) (text : String)
    (topic : Option String) (e : PyError)
    (hlen : ¬ (pyStrip text).length < 50) :
    (P.openaiA (create_analysis_prompt text topic) = .error e →
      analyze_with_openai P (initial_state text topic) = .error e ∧
      analyze_article P text topic =
        .serverError ("Analysis failed: " ++ e.msg)) ∧
    (∀ rA, P.openaiA (create_analysis_prompt text topic) = .ok rA →
      (∀ p, P.anthropicB p = .error e) →
      analyze_article P text topic =
        .serverError ("Analysis failed: " ++ e.msg)) ∧
    (∀ rA rB, P.openaiA (create_analysis_prompt text topic) = .ok rA →
      (∀ p, P.anthropicB p = .ok rB) →
      (∀ p, P.openaiC p = .error e) →
      analyze_article P text topic =
        .serverError ("Analysis failed: " ++ e.msg)) := by
  refine ⟨?_, ?_, ?_⟩
  · intro hA
    have h₁ : analyze_with_openai P (initial_state text topic) = Except.error e := by
      show (match P.openaiA (create_analysis_prompt text topic) with
        | Except.error e => Except.error e
        | Except.ok resp => Except.ok ({ messages := [], article := text, topic := topic, openai_analysis := extract_json_from_response resp, anthropic_analysis := Json.obj [], final_comparison := Json.obj [] } : AgentState)) = _
      rw [hA]
    refine ⟨h₁, ?_⟩
    have hrun : runGraph (create_analysis_graph P) (initial_state text topic) =
        Except.error e := by
      rw [runGraph_create, h₁]
    unfold analyze_article analyze_text
    rw [if_neg hlen, hrun]
  · intro rA hA hB
    have h₁ : analyze_with_openai P (initial_state text topic) =
        Except.ok ({ messages := [], article := text, topic := topic, openai_analysis := extract_json_from_response rA, anthropic_analysis := Json.obj [], final_comparison := Json.obj [] } : AgentState) := by
      show (match P.openaiA (create_analysis_prompt text topic) with
        | Except.error e => Except.error e
        | Except.ok resp => Except.ok ({ messages := [], article := text, topic := topic, openai_analysis := extract_json_from_response resp, anthropic_analysis := Json.obj [], final_comparison := Json.obj [] } : AgentState)) = _
      rw [hA]
    have hrun : runGraph (create_analysis_graph P) (initial_state text topic) =
        Except.error e := by
      rw [runGraph_create, h₁]
      show (match analyze_with_anthropic P
          ({ messages := [], article := text, topic := topic, openai_analysis := extract_json_from_response rA, anthropic_analysis := Json.obj [], final_comparison := Json.obj [] } : AgentState) with
        | Except.error e => Except.error e
        | Except.ok s₂ =>
          match compare_and_summarize P s₂ with
          | Except.error e => Except.error e
          | Except.ok s₃ => Except.ok s₃) = _
      have h₂ : analyze_with_anthropic P
          ({ messages := [], article := text, topic := topic, openai_analysis := extract_json_from_response rA, anthropic_analysis := Json.obj [], final_comparison := Json.obj [] } : AgentState) =
          Except.error e := by
        show (match P.anthropicB (create_analysis_prompt text topic) with
          | Except.error e => Except.error e
          | Except.ok resp => Except.ok ({ messages := [], article := text, topic := topic, openai_analysis := extract_json_from_response rA, anthropic_analysis := extract_json_from_response resp, final_comparison := Json.obj [] } : AgentState)) = _
        rw [hB]
      rw [h₂]
    unfold analyze_article analyze_text
    rw [if_neg hlen, hrun]
  · intro rA rB hA hB hC
    have h₁ : analyze_with_openai P (initial_state text topic) =
        Except.ok ({ messages := [], article := text, topic := topic, openai_analysis := extract_json_from_response rA, anthropic_analysis := Json.obj [], final_comparison := Json.obj [] } : AgentState) := by
      show (match P.openaiA (create_analysis_prompt text topic) with
        | Except.error e => Except.error e
        | Except.ok resp => Except.ok ({ messages := [], article := text, topic := topic, openai_analysis := extract_json_from_response resp, anthropic_analysis := Json.obj [], final_comparison := Json.obj [] } : AgentState)) = _
      rw [hA]
    have h₂ : analyze_with_anthropic P
        ({ messages := [], article := text, topic := topic, openai_analysis := extract_json_from_response rA, anthropic_analysis := Json.obj [], final_comparison := Json.obj [] } : AgentState) =
        Except.ok ({ messages := [], article := text, topic := topic, openai_analysis := extract_json_from_response rA, anthropic_analysis := extract_json_from_response rB, final_comparison := Json.obj [] } : AgentState) := by
      show (match P.anthropicB (create_analysis_prompt text topic) with
        | Except.error e => Except.error e
        | Except.ok resp => Except.ok ({ messages := [], article := text, topic := topic, openai_analysis := extract_json_from_response rA, anthropic_analysis := extract_json_from_response resp, final_comparison := Json.obj [] } : AgentState)) = _
      rw [hB]
    have h₃ : compare_and_summarize P
        ({ messages := [], article := text, topic := topic, openai_analysis := extract_json_from_response rA, anthropic_analysis := extract_json_from_response rB, final_comparison := Json.obj [] } : AgentState) = Except.error e := by
      show (match P.openaiC (create_comparison_prompt
          (extract_json_from_response rA) (extract_json_from_response rB) topic) with
        | Except.error e => Except.error e
        | Except.ok resp => Except.ok ({ messages := [], article := text, topic := topic, openai_analysis := extract_json_from_response rA, anthropic_analysis := extract_json_from_response rB, final_comparison := extract_json_from_response resp } : AgentState)) = _
      rw [hC]
    have hrun : runGraph (create_analysis_graph P) (initial_state text topic) =
        Except.error e := by
      rw [runGraph_create, h₁]
      show (match analyze_with_anthropic P
          ({ messages := [], article := text, topic := topic, openai_analysis := extract_json_from_response rA, anthropic_analysis := Json.obj [], final_comparison := Json.obj [] } : AgentState) with
        | Except.error e => Except.error e
        | Except.ok s₂ =>
          match compare_and_summarize P s₂ with
          | Except.error e => Except.error e
          | Except.ok s₃ => Except.ok s₃) = _
      rw [h₂]
      show (match compare_and_summarize P
          ({ messages := [], article := text, topic := topic, openai_analysis := extract_json_from_response rA, anthropic_analysis := extract_json_from_response rB, final_comparison := Json.obj [] } : AgentState) with
        | Except.error e => Except.error e
        | Except.ok s₃ => Except.ok s₃) = _
      rw [h₃]
    unfold analyze_article analyze_text
    rw [if_neg hlen, hrun]

/-- Claim C5, witness: a transport failure on the first call produces the
server-error response and the step itself propagates the error. -/
theorem transport_error_halts_witness :
    analyze_with_openai failingProviders (initial_state demoArticle none) =
      .error { msg := "connection timeout" } ∧
    analyze_article failingProviders demoArticle none =
      .serverError ("Analysis failed: " ++ ("connection timeout" : String)) :=
  (transport_error_halts failingProviders demoArticle none
      { msg := "connection timeout" } (by decide)).1 rfl

/-! ### Claim C6 -/

/-- Claim C6: an input whose trimmed length is 49 is rejected with the
client-error classification — for every provider assignment, so before
and independent of any network call — while a trimmed length of at least
50 is accepted: `analyze_text` proceeds to run the pipeline. -/
theorem validation_boundary (P : Providers) (text : String)
    (topic : Option String) :
    ((pyStrip text).length = 49 →
      analyze_article P text topic = .clientError tooShortMsg) ∧
    (50 ≤ (pyStrip text).length →
      analyze_text P text topic =
        match runGraph (create_analysis_graph P) (initial_state text topic) with
        | .error e => .error (.exn e)
        | .ok fs => .ok (fs.openai_analysis, fs.anthropic_analysis,
            fs.final_comparison)) := by
  constructor
  · intro h49
    unfold analyze_article analyze_text
    rw [if_pos (by omega)]
  · intro h50
    unfold analyze_text
    rw [if_neg (by omega)]

/-- Claim C6, witness: a 49-character trimmed input is rejected, a
50-character input is accepted and handed to the pipeline. -/
theorem validation_boundary_witness :
    analyze_article okProviders demoShort49 none = .clientError tooShortMsg ∧
    analyze_text okProviders demoExact50 none =
      match runGraph (create_analysis_graph okProviders)
          (initial_state demoExact50 none) with
      | .error e => .error (.exn e)
      | .ok fs => .ok (fs.openai_analysis, fs.anthropic_analysis,
          fs.final_comparison) :=
  ⟨(validation_boundary okProviders demoShort49 none).1 (by decide),
   (validation_boundary okProviders demoExact50 none).2 (by decide)⟩

/-! ### Claim C9 -/

/-- Claim C9: each of the three steps leaves `article`, `topic` (and
`messages`) unchanged, leaves the other two analysis fields unchanged, and
writes exactly its own analysis field, namely with the extraction of its
provider reply. -/
theorem step_frame (P : Providers) (st stOut : AgentState) :
    (analyze_with_openai P st = .ok stOut →
      stOut.article = st.article ∧ stOut.topic = st.topic ∧
      stOut.messages = st.messages ∧
      stOut.anthropic_analysis = st.anthropic_analysis ∧
      stOut.final_comparison = st.final_comparison ∧
      ∃ r, P.openaiA (create_analysis_prompt st.article st.topic) = .ok r ∧
        stOut.openai_analysis = extract_json_from_response r) ∧
    (analyze_with_anthropic P st = .ok stOut →
      stOut.article = st.article ∧ stOut.topic = st.topic ∧
      stOut.messages = st.messages ∧
      stOut.openai_analysis = st.openai_analysis ∧
      stOut.final_comparison = st.final_comparison ∧
      ∃ r, P.anthropicB (create_analysis_prompt st.article st.topic) = .ok r ∧
        stOut.anthropic_analysis = extract_json_from_response r) ∧
    (compare_and_summarize P st = .ok stOut →
      stOut.article = st.article ∧ stOut.topic = st.topic ∧
      stOut.messages = st.messages ∧
      stOut.openai_analysis = st.openai_analysis ∧
      stOut.anthropic_analysis = st.anthropic_analysis ∧
      ∃ r, P.openaiC (create_comparison_prompt st.openai_analysis
          st.anthropic_analysis st.topic) = .ok r ∧
        stOut.final_comparison = extract_json_from_response r) := by
  refine ⟨?_, ?_, ?_⟩
  · intro h
    have hx : (match P.openaiA (create_analysis_prompt st.article st.topic) with
        | Except.error e => Except.error e
        | Except.ok resp => Except.ok
            { st with openai_analysis := extract_json_from_response resp }) =
          Except.ok stOut := h
    cases hr : P.openaiA (create_analysis_prompt st.article st.topic) with
    | error e =>
      rw [hr] at hx
      exact Except.noConfusion hx
    | ok r =>
      rw [hr] at hx
      have hy : Except.ok (ε := PyError)
          { st with openai_analysis := extract_json_from_response r } =
          Except.ok stOut := hx
      cases hy
      exact ⟨rfl, rfl, rfl, rfl, rfl, r, rfl, rfl⟩
  · intro h
    have hx : (match P.anthropicB (create_analysis_prompt st.article st.topic) with
        | Except.error e => Except.error e
        | Except.ok resp => Except.ok
            { st with anthropic_analysis := extract_json_from_response resp }) =
          Except.ok stOut := h
    cases hr : P.anthropicB (create_analysis_prompt st.article st.topic) with
    | error e =>
      rw [hr] at hx
      exact Except.noConfusion hx
    | ok r =>
      rw [hr] at hx
      have hy : Except.ok (ε := PyError)
          { st with anthropic_analysis := extract_json_from_response r } =
          Except.ok stOut := hx
      cases hy
      exact ⟨rfl, rfl, rfl, rfl, rfl, r, rfl, rfl⟩
  · intro h
    have hx : (match P.openaiC (create_comparison_prompt st.openai_analysis
            st.anthropic_analysis st.topic) with
        | Except.error e => Except.error e
        | Except.ok resp => Except.ok
            { st with final_comparison := extract_json_from_response resp }) =
          Except.ok stOut := h
    cases hr : P.openaiC (create_comparison_prompt st.openai_analysis
        st.anthropic_analysis st.topic) with
    | error e =>
      rw [hr] at hx
      exact Except.noConfusion hx
    | ok r =>
      rw [hr] at hx
      have hy : Except.ok (ε := PyError)
          { st with final_comparison := extract_json_from_response r } =
          Except.ok stOut := hx
      cases hy
      exact ⟨rfl, rfl, rfl, rfl, rfl, r, rfl, rfl⟩

/-- Claim C9, witness: the first step under `okProviders` preserves every
field except its own analysis field, which holds the extracted reply. -/
theorem step_frame_witness :
    demoStateA.article = (initial_state demoArticle none).article ∧
    demoStateA.topic = (initial_state demoArticle none).topic ∧
    demoStateA.messages = (initial_state demoArticle none).messages ∧
    demoStateA.anthropic_analysis =
      (initial_state demoArticle none).anthropic_analysis ∧
    demoStateA.final_comparison =
      (initial_state demoArticle none).final_comparison ∧
    ∃ r, okProviders.openaiA (create_analysis_prompt
        (initial_state demoArticle none).article
        (initial_state demoArticle none).topic) = .ok r ∧
      demoStateA.openai_analysis = extract_json_from_response r :=
  (step_frame okProviders (initial_state demoArticle none) demoStateA).1 (by rfl)

/-! ### Claim C10 -/

/-- Claim C10: for every accepted input the state handed to the pipeline
carries the original text verbatim in `article` (and the topic verbatim),
and `analyze_text` runs the graph on exactly that state — the trimmed text
is used only inside the length check. -/
theorem article_untrimmed (P : Providers) (text : String)
    (topic : Option String) (hlen : ¬ (pyStrip text).length < 50) :
    (initial_state text topic).article = text ∧
    (initial_state text topic).topic = topic ∧
    analyze_text P text topic =
      match runGraph (create_analysis_graph P) (initial_state text topic) with
      | .error e => .error (.exn e)
      | .ok fs => .ok (fs.openai_analysis, fs.anthropic_analysis,
          fs.final_comparison) := by
  refine ⟨rfl, rfl, ?_⟩
  unfold analyze_text
  rw [if_neg hlen]

/-- Claim C10, witness: an input with leading and trailing whitespace is
accepted (its trimmed length passes) yet the article stored in the state
keeps the whitespace verbatim. -/
theorem article_untrimmed_witness :
    (initial_state demoArticlePadded none).article = demoArticlePadded ∧
    (initial_state demoArticlePadded none).topic = none ∧
    analyze_text okProviders demoArticlePadded none =
      match runGraph (create_analysis_graph okProviders)
          (initial_state demoArticlePadded none) with
      | .error e => .error (.exn e)
      | .ok fs => .ok (fs.openai_analysis, fs.anthropic_analysis,
          fs.final_comparison) :=
  article_untrimmed okProviders demoArticlePadded none (by decide)

end ArticleAnalysis
